import Mathlib

/-!
# keep-ecdsa: client orchestration, threshold signing session, CLI

A shallow embedding of the Go sources

* `pkg/client/registration.go` (registration state machine),
* `pkg/client/client.go` (event orchestrator),
* `pkg/ecdsa/tss/signing.go` (signing session),
* `pkg/btc/btc.go` (bitcoin transaction signing),
* `cmd/sign.go` (sign command),

followed by theorems about them.

Conventions of the embedding.

* A Go value of type `error` is an `Option String`: `none` is `nil`.
  A Go result `(v, err)` whose value is only read when `err == nil` is an
  `Except String V`.
* A function with effects returns the list of effects it performed, in
  program order, next to its result. Calls to the logger are not effects of
  the model.
* A loop around `select` consumes the list of events its `select` takes,
  in the order it takes them. When the list is exhausted and no case of the
  `select` is ready, the goroutine is parked in `select` for ever, which the
  model reports as `waiting`.
-/

namespace KeepEcdsa

/-! ## pkg/client/registration.go -/

namespace Client

/-- How a loop around `select` ends: the function returned, or the goroutine is
still parked in `select` because nothing more was delivered to it. -/
inductive LoopExit
  | returned
  | waiting
  deriving DecidableEq, Repr

/-- What the `select` of `registerAsMemberCandidate` takes in one iteration:
a block from `newBlockChan`, together with the answers the chain gives during
that iteration (`IsEligibleForApplication`, and `RegisterAsMemberCandidate`
should it be called), or `<-ctx.Done()`. -/
inductive EligibilityEvent
  | newBlock (isEligible : Except String Bool) (register : Option String)
  | ctxDone

/-- Effects of `registerAsMemberCandidate`, in program order. -/
inductive RegistrationStep
  | isEligibleForApplication
  | registerAsMemberCandidate (succeeded : Bool)
  | cancel
  deriving DecidableEq, Repr

/-- Puts the effects of one loop iteration in front of the rest of the run. -/
def andThen {σ ρ : Type} (steps : List σ) (run : List σ × ρ) : List σ × ρ :=
  (steps ++ run.1, run.2)

/-- The `for { select { ... } }` loop of `registerAsMemberCandidate`.
The list gives what the `select` takes, iteration after iteration. The flag
says whether the loop has called `cancel()` on its own context. There is no
`return` after `cancel()` on line 101: the loop enters the `select` again,
where `ctx.Done()` is ready from then on and a block may be ready as well, and
Go chooses among the ready cases. A block at the head of the list is a block
the `select` takes, also after the cancellation; when nothing more is
delivered, a cancelled loop takes `ctx.Done()` and returns, and a loop that is
not cancelled stays parked. The step `cancel` is the call on line 101; the
deferred `cancel()`, which runs when the function has returned, is not
recorded. -/
def registrationLoop : Bool → List EligibilityEvent → List RegistrationStep × LoopExit
  | false, [] => ([], .waiting)
  | true, [] => ([], .returned)
  | _, .ctxDone :: _ => ([], .returned)
  | cancelled, .newBlock (.error _) _ :: rest =>
      andThen [.isEligibleForApplication] (registrationLoop cancelled rest)
  | cancelled, .newBlock (.ok false) _ :: rest =>
      andThen [.isEligibleForApplication] (registrationLoop cancelled rest)
  | cancelled, .newBlock (.ok true) (some _) :: rest =>
      andThen [.isEligibleForApplication, .registerAsMemberCandidate false]
        (registrationLoop cancelled rest)
  | _, .newBlock (.ok true) none :: rest =>
      andThen [.isEligibleForApplication, .registerAsMemberCandidate true, .cancel]
        (registrationLoop true rest)

/-- Go `registerAsMemberCandidate(parentCtx, ethereumChain, application)`:
derives a cancellable context, watches blocks and runs the loop. -/
def registerAsMemberCandidate (events : List EligibilityEvent) :
    List RegistrationStep × LoopExit :=
  registrationLoop false events

/-- Number of calls of `RegisterAsMemberCandidate` among the effects. -/
def registrationAttempts : List RegistrationStep → Nat
  | [] => 0
  | .registerAsMemberCandidate _ :: rest => registrationAttempts rest + 1
  | _ :: rest => registrationAttempts rest

/-- A block on which no registration succeeds: the eligibility check fails,
the operator is not eligible, or the registration call returns an error. -/
def EligibilityEvent.isUnsuccessfulBlock : EligibilityEvent → Bool
  | .newBlock (.error _) _ => true
  | .newBlock (.ok false) _ => true
  | .newBlock (.ok true) (some _) => true
  | _ => false

/-- A block on which the eligibility check passes. -/
def EligibilityEvent.isEligibleBlock : EligibilityEvent → Bool
  | .newBlock (.ok true) _ => true
  | _ => false

/-- Specification of one block on which no registration succeeds, after the
words of the amended claim: the eligibility is checked, and when the check
passes the registration is called, and fails. -/
def specPollingSteps : EligibilityEvent → List RegistrationStep
  | .newBlock (.ok true) _ => [.isEligibleForApplication, .registerAsMemberCandidate false]
  | _ => [.isEligibleForApplication]

/-- What the `select` of `monitorSignerPoolStatus` receives: a block, with the
answers of the chain during that iteration (`IsStatusUpToDateForApplication`,
and `UpdateStatusForApplication` should it be called), or `ctx.Done()`. -/
inductive StatusEvent
  | newBlock (isUpToDate : Except String Bool) (update : Option String)
  | ctxDone

/-- Effects of `monitorSignerPoolStatus`, in program order. -/
inductive StatusStep
  | isStatusUpToDateForApplication
  | updateStatusForApplication (succeeded : Bool)
  deriving DecidableEq, Repr

/-- Go `monitorSignerPoolStatus(ctx, ethereumChain, application)`. -/
def monitorSignerPoolStatus : List StatusEvent → List StatusStep × LoopExit
  | [] => ([], .waiting)
  | .ctxDone :: _ => ([], .returned)
  | .newBlock (.error _) _ :: rest =>
      andThen [.isStatusUpToDateForApplication] (monitorSignerPoolStatus rest)
  | .newBlock (.ok true) _ :: rest =>
      andThen [.isStatusUpToDateForApplication] (monitorSignerPoolStatus rest)
  | .newBlock (.ok false) update :: rest =>
      andThen [.isStatusUpToDateForApplication, .updateStatusForApplication update.isNone]
        (monitorSignerPoolStatus rest)

/-- The chain answers of one block of the status loop. -/
structure StatusTick where
  isUpToDate : Except String Bool
  update : Option String

/-- The block event carrying the answers of a tick. -/
def StatusTick.toEvent (t : StatusTick) : StatusEvent :=
  .newBlock t.isUpToDate t.update

/-- Specification of one tick of the status loop, after the words of the
specification: the status is checked, and an update is issued exactly when the
check succeeded and reported the status stale. -/
def specStatusCallsOnTick (t : StatusTick) : List StatusStep :=
  match t.isUpToDate with
  | .ok false => [.isStatusUpToDateForApplication, .updateStatusForApplication t.update.isNone]
  | _ => [.isStatusUpToDateForApplication]

/-- The answers one iteration of the loop of `waitUntilRegistered` gets:
whether `ctx.Err() != nil` at its start, the result of
`IsRegisteredForApplication`, the Go pair `(uint64, error)` of
`CurrentBlock()`, of which the loop uses the first component whether or not
the second is nil, and the error of `WaitForBlockHeight`. -/
structure RegistrationPoll where
  ctxErr : Bool
  isRegistered : Except String Bool
  currentBlock : Nat
  currentBlockErr : Option String
  waitForBlockHeight : Option String

/-- Effects of `waitUntilRegistered`, in program order. -/
inductive ConfirmationStep
  | isRegisteredForApplication
  | currentBlock
  | waitForBlockHeight (blockNumber : Nat)
  deriving DecidableEq, Repr

/-- The constant `checkIntervalBlocks := uint64(5)` of `waitUntilRegistered`. -/
def checkIntervalBlocks : Nat := 5

/-- Go `waitUntilRegistered(ctx, ethereumChain, application)`. The loop has no
`select`: each iteration consumes the answers of one `RegistrationPoll`, and
`waiting` means that the loop has used up the answers given and goes on.
`nextCheckBlock` is a `uint64` sum. Both `continue` statements and the end of
the body lead to the next iteration. -/
def waitUntilRegistered : List RegistrationPoll → List ConfirmationStep × LoopExit
  | [] => ([], .waiting)
  | poll :: rest =>
    if poll.ctxErr then
      ([], .returned)
    else
      match poll.isRegistered with
      | .error _ => andThen [.isRegisteredForApplication] (waitUntilRegistered rest)
      | .ok true => ([.isRegisteredForApplication], .returned)
      | .ok false =>
        let nextCheckBlock := (poll.currentBlock + checkIntervalBlocks) % 2 ^ 64
        andThen
          [.isRegisteredForApplication, .currentBlock, .waitForBlockHeight nextCheckBlock]
          (waitUntilRegistered rest)

end Client

/-! ## pkg/client/client.go -/

namespace Client

/-- An Ethereum address (`common.Address`). -/
abbrev Address := Nat

/-- A member identifier of the signing group (`tss.MemberID`). -/
abbrev MemberID := Nat

/-- A handle on a threshold signer (`*tss.ThresholdSigner`). -/
abbrev ThresholdSigner := Nat

/-- A non-nil `subscription.EventSubscription`. -/
abbrev Subscription := Nat

/-- The Go result pair `(subscription.EventSubscription, error)` of a
subscribing call of the chain; both components can be nil. -/
structure SubscribeResult where
  subscription : Option Subscription
  err : Option String

/-- Effects of the functions of `client.go`, in program order. -/
inductive ClientStep
  | initializeTSSPreParamsPool
  | loadExistingKeeps
  | isActive (keepAddress : Address)
  | onSignatureRequested (keepAddress : Address) (signer : ThresholdSigner)
  | goMonitorKeepClosedEvents (keepAddress : Address)
      (subscriptionOnSignatureRequested : Option Subscription)
  | unregisterKeep (keepAddress : Address)
  | onBondedECDSAKeepCreated
  | goCheckStatusAndRegisterForApplication (application : Address)
  | announceSignerPresence (keepAddress : Address) (members : List Address)
  | generateSignerForKeep (keepAddress : Address) (memberIDs : List MemberID)
  | registerSigner (keepAddress : Address) (signer : ThresholdSigner)
  | onKeepClosed (keepAddress : Address)
  | keepClosedSend
  | keepClosedReceive
  | unsubscribeSignatureRequested (subscription : Subscription)
  | unsubscribeKeepClosed (subscription : Subscription)
  deriving DecidableEq, Repr

/-- Go `monitorSignatureEvents(ethereumChain, tssNode, keepAddress, signer)`:
subscribes through `OnSignatureRequested` and returns the subscription the
chain handed back, also when the chain reported an error (which is logged).
The handler it installs runs when signature requests arrive, after this
function has returned. -/
def monitorSignatureEvents (keepAddress : Address) (signer : ThresholdSigner)
    (onSignatureRequested : SubscribeResult) : List ClientStep × Option Subscription :=
  ([.onSignatureRequested keepAddress signer], onSignatureRequested.subscription)

/-- How the goroutine of `monitorKeepClosedEvents` ends. -/
inductive TaskExit
  | returned
  | waiting
  | panicked
  deriving DecidableEq, Repr

/-- Go `monitorKeepClosedEvents(ethereumChain, keepAddress, keepsRegistry,
subscriptionOnSignatureRequested)`.

`onKeepClosed` is the answer of `ethereumChain.OnKeepClosed`; `keepClosed` says
whether the chain invokes the handler with a keep-closed event while the task
waits on its channel. The handler unregisters the keep and then sends on the
channel; the task receives and returns, running its deferred calls last
deferred first. A `defer x.Unsubscribe()` on a nil interface value panics when
the `defer` statement is executed, and the calls deferred before it still
run. -/
def monitorKeepClosedEvents (keepAddress : Address)
    (subscriptionOnSignatureRequested : Option Subscription)
    (onKeepClosed : SubscribeResult) (keepClosed : Bool) : List ClientStep × TaskExit :=
  match onKeepClosed.subscription with
  | none => ([.onKeepClosed keepAddress], .panicked)
  | some subscriptionOnKeepClosed =>
    match subscriptionOnSignatureRequested with
    | none =>
      ([.onKeepClosed keepAddress, .unsubscribeKeepClosed subscriptionOnKeepClosed],
        .panicked)
    | some signatureRequested =>
      if keepClosed then
        ([.onKeepClosed keepAddress,
          .unregisterKeep keepAddress, .keepClosedSend,
          .keepClosedReceive,
          .unsubscribeSignatureRequested signatureRequested,
          .unsubscribeKeepClosed subscriptionOnKeepClosed],
         .returned)
      else
        ([.onKeepClosed keepAddress], .waiting)

/-- A signer of the registry as the start-up loop meets it, with the answers
the chain gives during its iteration: `IsActive(keepAddress)`, and
`OnSignatureRequested` should it be called. -/
structure LoadedSigner where
  signer : ThresholdSigner
  isActive : Except String Bool
  onSignatureRequested : SubscribeResult

/-- The body of `for _, signer := range signer` in the function `Initialize`
hands to `ForEachKeep`. -/
def Initialize.forSigner (keepAddress : Address) (loaded : LoadedSigner) : List ClientStep :=
  match loaded.isActive with
  | .error _ => [.isActive keepAddress]
  | .ok true =>
    let monitored := monitorSignatureEvents keepAddress loaded.signer loaded.onSignatureRequested
    [.isActive keepAddress] ++ monitored.1 ++
      [.goMonitorKeepClosedEvents keepAddress monitored.2]
  | .ok false => [.isActive keepAddress, .unregisterKeep keepAddress]

/-- The function `Initialize` hands to `ForEachKeep`: the loop over the
signers of one keep. -/
def Initialize.forKeep (keepAddress : Address) : List LoadedSigner → List ClientStep
  | [] => []
  | loaded :: rest => Initialize.forSigner keepAddress loaded ++ Initialize.forKeep keepAddress rest

/-- Modelled from the spec: `(*registry.Keeps).ForEachKeep`, whose source is
not among the sources verified here. It synchronously invokes `fn` once per
(keepAddress, signer-list) pair present at call time. -/
def forEachKeep {σ : Type} (keeps : List (Address × List LoadedSigner))
    (fn : Address → List LoadedSigner → List σ) : List σ :=
  match keeps with
  | [] => []
  | (keepAddress, signers) :: rest => fn keepAddress signers ++ forEachKeep rest fn

/-- Go `eth.BondedECDSAKeepCreatedEvent`. -/
structure BondedECDSAKeepCreatedEvent where
  keepAddress : Address
  members : List Address

/-- Modelled from the spec: `(*eth.BondedECDSAKeepCreatedEvent).IsMember`, whose
source is not among the sources verified here: whether the address is one of the
members of the new keep. -/
def BondedECDSAKeepCreatedEvent.IsMember (event : BondedECDSAKeepCreatedEvent)
    (address : Address) : Bool :=
  event.members.contains address

/-- The answers the node, the registry and the chain give while the handler
of one new-keep event runs. `announceSignerPresence` is the Go pair
`(memberIDs, err)`, of which the handler reads the first component only. -/
structure KeepCreatedAnswers where
  announceMemberIDs : List MemberID
  announceErr : Option String
  generateSignerForKeep : Except String ThresholdSigner
  registerSigner : Option String
  onSignatureRequested : SubscribeResult

/-- The handler `Initialize` passes to `OnBondedECDSAKeepCreated`.
`err` of `AnnounceSignerPresence` is overwritten by the next assignment before
it is read; an error of `RegisterSigner` is logged and the handler goes on. -/
def Initialize.keepCreatedHandler (operatorAddress : Address)
    (event : BondedECDSAKeepCreatedEvent) (answers : KeepCreatedAnswers) : List ClientStep :=
  if event.IsMember operatorAddress then
    let memberIDs := answers.announceMemberIDs
    match answers.generateSignerForKeep with
    | .error _ =>
      [.announceSignerPresence event.keepAddress event.members,
       .generateSignerForKeep event.keepAddress memberIDs]
    | .ok signer =>
      let monitored := monitorSignatureEvents event.keepAddress signer answers.onSignatureRequested
      [.announceSignerPresence event.keepAddress event.members,
       .generateSignerForKeep event.keepAddress memberIDs,
       .registerSigner event.keepAddress signer] ++ monitored.1 ++
      [.goMonitorKeepClosedEvents event.keepAddress monitored.2]
  else
    []

/-- Go `Initialize(...)`: what it does itself, before any event arrives. The
handler of new-keep events is `Initialize.keepCreatedHandler`. -/
def Initialize (keeps : List (Address × List LoadedSigner))
    (sanctionedApplications : List Address) : List ClientStep :=
  [.initializeTSSPreParamsPool, .loadExistingKeeps] ++
    forEachKeep keeps Initialize.forKeep ++
    [.onBondedECDSAKeepCreated] ++
    sanctionedApplications.map .goCheckStatusAndRegisterForApplication

end Client

/-! ## pkg/ecdsa/tss/signing.go -/

namespace Tss

/-- A Go `byte`. -/
abbrev Byte := Fin 256

/-- Go `new(big.Int).SetBytes(buf)`, computed by shifting in one byte after
the other, most significant first. -/
def setBytes (buf : List Byte) : Nat :=
  buf.foldl (fun acc b => acc * 256 + b.val) 0

/-- The unsigned big-endian integer denoted by a byte string: the byte at
position `i` of `n` bytes weighs `256 ^ (n - 1 - i)`. -/
def bigEndianValue : List Byte → Nat
  | [] => 0
  | b :: rest => b.val * 256 ^ rest.length + bigEndianValue rest

/-- The fields of the engine's `signing.SignatureData` read by the converter,
as returned by `GetR()`, `GetS()` and `GetSignatureRecovery()`. -/
structure SignatureData where
  r : List Byte
  s : List Byte
  signatureRecovery : List Byte

/-- Go `ecdsa.Signature`. `R` and `S` are non-negative `*big.Int`; `RecoveryID`
is a Go `int` which here is built from one byte and cannot overflow. -/
structure Signature where
  R : Nat
  S : Nat
  RecoveryID : Nat
  deriving DecidableEq, Repr

/-- Go `convertSignatureTSStoECDSA(tssSignature)`. The result is `none` when
the index expression `recoveryBytes[0]` panics (empty slice). -/
def convertSignatureTSStoECDSA (tssSignature : SignatureData) : Option Signature :=
  let recoveryBytes := tssSignature.signatureRecovery
  let recoveryInt := 0
  match recoveryBytes with
  | [] => none
  | first :: _ =>
    let recoveryInt := (recoveryInt <<< 8) ||| first.val
    some
      { R := setBytes tssSignature.r
        S := setBytes tssSignature.s
        RecoveryID := recoveryInt }

/-- The `tssLib.Party` of a signer as `Sign` uses it: the result of `Start()`
(`none` is a nil error) and `WrapError`. -/
structure Party where
  start : Option String
  wrapError : String → String

/-- Go `SigningSigner`, with its party a nil-able interface value. The
channels are represented by what they deliver, see `EngineDelivery`. -/
structure SigningSigner where
  signingParty : Option Party

/-- What the `select` of `Sign` receives from the engine: a signature from
`signingEndChan` or an error from `signingErrChan`. -/
inductive EngineDelivery
  | signature (data : SignatureData)
  | error (err : String)

/-- How a call of `Sign` ends. `returned` carries the Go result pair
`(*ecdsa.Signature, error)` with `none` for `nil`; `blocked` is a goroutine
parked for ever in the `select`; `panicked` is a run-time panic. -/
inductive SignResult
  | returned (signature : Option Signature) (err : Option String)
  | blocked
  | panicked
  deriving DecidableEq, Repr

/-- Go `(s *SigningSigner) Sign()`. `deliveries` lists what the engine
delivers on the end and error channels, in the order the `select` receives it.
The deferred `close(s.doneChan)` runs whenever the function returns or
panics. -/
def SigningSigner.Sign (s : SigningSigner) (deliveries : List EngineDelivery) : SignResult :=
  match s.signingParty with
  | none => .returned none (some "failed to get initialized signing party")
  | some party =>
    match party.start with
    | some err =>
      .returned none (some ("failed to start signing: [" ++ party.wrapError err ++ "]"))
    | none =>
      match deliveries with
      | [] => .blocked
      | .signature signature :: _ =>
        match convertSignatureTSStoECDSA signature with
        | some ecdsaSignature => .returned (some ecdsaSignature) none
        | none => .panicked
      | .error err :: _ =>
        .returned none (some ("failed to sign: [" ++ party.wrapError err ++ "]"))

/-- The run is one in which the engine, once started, first delivers a
signature whose recovery output is not empty. -/
def deliversSignature (s : SigningSigner) (deliveries : List EngineDelivery) : Bool :=
  match s.signingParty, deliveries with
  | some party, .signature data :: _ => party.start.isNone && !data.signatureRecovery.isEmpty
  | _, _ => false

/-- The run is one in which the signing party is nil, the engine fails to
start, or the engine, once started, first reports an error. -/
def failsOrReportsError (s : SigningSigner) (deliveries : List EngineDelivery) : Bool :=
  match s.signingParty, deliveries with
  | none, _ => true
  | some _, .error _ :: _ => true
  | some party, _ => party.start.isSome

end Tss

/-! ## pkg/btc/btc.go -/

namespace Btc

/-- An input of a bitcoin transaction (`wire.TxIn`), reduced to its witness. -/
structure TxIn where
  witness : List (List Tss.Byte)
  deriving DecidableEq, Repr

/-- A deserialized bitcoin transaction (`wire.MsgTx`), reduced to its inputs. -/
structure Transaction where
  txIn : List TxIn
  deriving DecidableEq, Repr

/-- A signature of `pkg/sign`. -/
structure Signature where
  R : Nat
  S : Nat
  deriving DecidableEq, Repr

/-- The collaborators of `SignAndPublishTransaction`, none of whose sources is
among the sources verified here, taken as parameters: `utils.DeserializeTransaction`,
`signer.CalculateSignature(rand, hash)`, `SetSignatureWitnessToTransaction`
for the public key of the signer (`none` is a run-time panic),
`utils.SerializeTransaction` and `Publish(chain, raw)`. -/
structure Collaborators where
  deserializeTransaction : List Tss.Byte → Except String Transaction
  calculateSignature : List Tss.Byte → Except String Signature
  setSignatureWitnessToTransaction : Signature → Nat → Transaction → Option Transaction
  serializeTransaction : Transaction → Except String (List Tss.Byte)
  publish : List Tss.Byte → Except String String

/-- Effects of `SignAndPublishTransaction`, in program order. -/
inductive BtcStep
  | calculateSignature (witnessSignatureHash : List Tss.Byte)
  | publish (rawSignedTransaction : List Tss.Byte)
  deriving DecidableEq, Repr

/-- How `SignAndPublishTransaction` ends: it returns its `error` (`none` is
nil) or panics. -/
inductive BtcResult
  | returned (err : Option String)
  | panicked
  deriving DecidableEq, Repr

/-- Go `SignAndPublishTransaction(rand, chain, signer, witnessSignatureHash,
transactionPreimage)`. -/
def SignAndPublishTransaction (c : Collaborators)
    (witnessSignatureHash transactionPreimage : List Tss.Byte) : List BtcStep × BtcResult :=
  match c.deserializeTransaction transactionPreimage with
  | .error err =>
    ([], .returned (some ("cannot deserialize transaction preimage [" ++ err ++ "]")))
  | .ok transaction =>
    if transaction.txIn.length > 1 then
      ([], .returned (some "only transactions with one input are supported"))
    else
      let inputIndex := 0
      match c.calculateSignature witnessSignatureHash with
      | .error err => ([.calculateSignature witnessSignatureHash], .returned (some err))
      | .ok signature =>
        match c.setSignatureWitnessToTransaction signature inputIndex transaction with
        | none => ([.calculateSignature witnessSignatureHash], .panicked)
        | some signed =>
          match c.serializeTransaction signed with
          | .error err => ([.calculateSignature witnessSignatureHash], .returned (some err))
          | .ok rawSignedTransaction =>
            match c.publish rawSignedTransaction with
            | .error err =>
              ([.calculateSignature witnessSignatureHash, .publish rawSignedTransaction],
                .returned (some ("transaction publication failed [" ++ err ++ "]")))
            | .ok _ =>
              ([.calculateSignature witnessSignatureHash, .publish rawSignedTransaction],
                .returned none)

/-- Collaborators for which every preimage deserializes to a transaction
without inputs and every later step succeeds. -/
def collaboratorsWithoutInputs : Collaborators where
  deserializeTransaction := fun _ => .ok { txIn := [] }
  calculateSignature := fun _ => .ok { R := 1, S := 2 }
  setSignatureWitnessToTransaction := fun _ _ transaction => some transaction
  serializeTransaction := fun _ => .ok [1, 0]
  publish := fun _ => .ok "transaction hash"

end Btc

/-! ## cmd/sign.go -/

namespace Cmd

/-- A public key of a local signer: its coordinates. -/
structure PublicKey where
  X : Nat
  Y : Nat
  deriving DecidableEq, Repr

/-- A signer of `pkg/sign` as the command uses it. -/
structure Signer where
  publicKey : PublicKey
  deriving DecidableEq, Repr

/-- A signature of `pkg/sign`. -/
structure Signature where
  R : Nat
  S : Nat
  deriving DecidableEq, Repr

/-- The functions of `pkg/sign` the command calls, whose sources are not
among the sources verified here, taken as parameters. `Key` is the private key type. -/
structure SignPackage (Key : Type) where
  generateKey : Except String Key
  newSigner : Key → Except String Signer
  calculateSignature : Signer → List UInt8 → Except String Signature

/-- One call of `fmt.Printf`: the format and the arguments. -/
structure Printf where
  format : String
  args : List Nat
  deriving DecidableEq, Repr

/-- The public key block the command prints. -/
def publicKeyBlock (signer : Signer) : Printf :=
  { format := "--- Generated Public Key:\nX: %x\nY: %x\n"
    args := [signer.publicKey.X, signer.publicKey.Y] }

/-- The signature block the command prints. -/
def signatureBlock (signature : Signature) : Printf :=
  { format := "--- Signature:\nR: %x\nS: %x\n"
    args := [signature.R, signature.S] }

/-- Go `Sign(c *cli.Context) error`, with `arg := c.Args().First()`. The
result is what was written to standard output, in order, and the returned
error (`none` is nil). -/
def Sign {Key : Type} (pkg : SignPackage Key) (arg : String) : List Printf × Option String :=
  match pkg.generateKey with
  | .error err => ([], some ("key generation failed [" ++ err ++ "]"))
  | .ok privateKey =>
    match pkg.newSigner privateKey with
    | .error err => ([], some ("signer creation failed [" ++ err ++ "]"))
    | .ok signer =>
      match pkg.calculateSignature signer arg.toUTF8.toList with
      | .error err =>
        ([publicKeyBlock signer], some ("signature calculation failed [" ++ err ++ "]"))
      | .ok signature =>
        ([publicKeyBlock signer, signatureBlock signature], none)

/-- A `pkg/sign` in which the key and the signer are created and the
signature calculation fails. -/
def packageFailingToSign : SignPackage Nat where
  generateKey := .ok 11
  newSigner := fun _ => .ok { publicKey := { X := 3, Y := 4 } }
  calculateSignature := fun _ _ => .error "entropy source failed"

/-- A `pkg/sign` in which key generation fails. -/
def packageWithoutKey : SignPackage Nat where
  generateKey := .error "no entropy"
  newSigner := fun _ => .ok { publicKey := { X := 3, Y := 4 } }
  calculateSignature := fun _ _ => .ok { R := 5, S := 6 }

/-- A `pkg/sign` in which the signer cannot be created. -/
def packageWithoutSigner : SignPackage Nat where
  generateKey := .ok 11
  newSigner := fun _ => .error "invalid key"
  calculateSignature := fun _ _ => .ok { R := 5, S := 6 }

/-- A `pkg/sign` in which every call succeeds. -/
def packageSigning : SignPackage Nat where
  generateKey := .ok 11
  newSigner := fun _ => .ok { publicKey := { X := 3, Y := 4 } }
  calculateSignature := fun _ _ => .ok { R := 5, S := 6 }

end Cmd

/-! ## Theorems: registration state machine -/

namespace Client

theorem andThen_fst {σ ρ : Type} (steps : List σ) (run : List σ × ρ) :
    (andThen steps run).1 = steps ++ run.1 := rfl

theorem andThen_snd {σ ρ : Type} (steps : List σ) (run : List σ × ρ) :
    (andThen steps run).2 = run.2 := rfl

theorem registrationLoop_unsuccessful_blocks (cancelled : Bool)
    (earlier rest : List EligibilityEvent)
    (h : ∀ e ∈ earlier, e.isUnsuccessfulBlock = true) :
    registrationLoop cancelled (earlier ++ rest) =
      andThen (earlier.flatMap specPollingSteps) (registrationLoop cancelled rest) := by
  induction earlier with
  | nil => rfl
  | cons e earlier ih =>
    have he := h e (List.mem_cons_self _ _)
    have ih := ih (fun x hx => h x (List.mem_cons_of_mem _ hx))
    match e, he with
    | .newBlock (.error _) _, _ =>
      simp [registrationLoop, ih, andThen, specPollingSteps]
    | .newBlock (.ok false) _, _ =>
      simp [registrationLoop, ih, andThen, specPollingSteps]
    | .newBlock (.ok true) (some _), _ =>
      simp [registrationLoop, ih, andThen, specPollingSteps]

theorem registrationAttempts_append (xs ys : List RegistrationStep) :
    registrationAttempts (xs ++ ys) = registrationAttempts xs + registrationAttempts ys := by
  induction xs with
  | nil => simp [registrationAttempts]
  | cons x xs ih =>
    cases x <;> simp [registrationAttempts, ih]
    omega

theorem registrationAttempts_polling (blocks : List EligibilityEvent) :
    registrationAttempts (blocks.flatMap specPollingSteps) =
      (blocks.filter EligibilityEvent.isEligibleBlock).length := by
  induction blocks with
  | nil => rfl
  | cons e blocks ih =>
    rw [List.flatMap_cons, registrationAttempts_append, ih]
    match e with
    | .ctxDone =>
      simp [specPollingSteps, registrationAttempts, EligibilityEvent.isEligibleBlock]
    | .newBlock (.error _) _ =>
      simp [specPollingSteps, registrationAttempts, EligibilityEvent.isEligibleBlock]
    | .newBlock (.ok false) _ =>
      simp [specPollingSteps, registrationAttempts, EligibilityEvent.isEligibleBlock]
    | .newBlock (.ok true) _ =>
      simp [specPollingSteps, registrationAttempts, EligibilityEvent.isEligibleBlock]
      omega

/-- C1, the claim as stated fails: when the first registration call returns an
error the loop does not cancel its context; on the next block on which the
operator is eligible `RegisterAsMemberCandidate` is called a second time. -/
theorem registerAsMemberCandidate_retries_after_failed_registration :
    (registerAsMemberCandidate
        [.newBlock (.ok true) (some "transaction reverted"),
         .newBlock (.ok true) none]).1 =
      [.isEligibleForApplication, .registerAsMemberCandidate false,
       .isEligibleForApplication, .registerAsMemberCandidate true, .cancel] ∧
    ¬ registrationAttempts (registerAsMemberCandidate
        [.newBlock (.ok true) (some "transaction reverted"),
         .newBlock (.ok true) none]).1 ≤ 1 := by
  constructor
  · rfl
  · decide

/-- C1 as amended: for every sequence of block ticks and chain responses, as
long as no registration call has succeeded the loop stays uncancelled and
polling: every tick costs one eligibility check and, when the check passes, one
call of `RegisterAsMemberCandidate`; a call that returns an error does not
cancel the context and the call is made again on the next tick whose check
passes, so the number of calls is the number of such ticks, and after these
ticks the loop is still waiting for blocks. Directly after the first
successful call the phase cancels its own context, and when its `select` then
takes `ctx.Done()` the function returns, whatever would follow. -/
theorem registerAsMemberCandidate_retries_until_registration_succeeds
    (earlier rest : List EligibilityEvent)
    (hearlier : ∀ e ∈ earlier, e.isUnsuccessfulBlock = true) :
    registerAsMemberCandidate (earlier ++ rest) =
      andThen (earlier.flatMap specPollingSteps) (registerAsMemberCandidate rest) ∧
    registerAsMemberCandidate earlier = (earlier.flatMap specPollingSteps, .waiting) ∧
    registrationAttempts (earlier.flatMap specPollingSteps) =
      (earlier.filter EligibilityEvent.isEligibleBlock).length ∧
    registerAsMemberCandidate (earlier ++ [.newBlock (.ok true) none]) =
      (earlier.flatMap specPollingSteps ++
          [.isEligibleForApplication, .registerAsMemberCandidate true, .cancel],
        .returned) ∧
    registerAsMemberCandidate (earlier ++ .newBlock (.ok true) none :: .ctxDone :: rest) =
      (earlier.flatMap specPollingSteps ++
          [.isEligibleForApplication, .registerAsMemberCandidate true, .cancel],
        .returned) := by
  unfold registerAsMemberCandidate
  refine ⟨registrationLoop_unsuccessful_blocks false earlier rest hearlier, ?_,
    registrationAttempts_polling earlier, ?_, ?_⟩
  · have := registrationLoop_unsuccessful_blocks false earlier [] hearlier
    simpa [registrationLoop, andThen] using this
  · rw [registrationLoop_unsuccessful_blocks false earlier _ hearlier]
    simp [registrationLoop, andThen]
  · rw [registrationLoop_unsuccessful_blocks false earlier _ hearlier]
    simp [registrationLoop, andThen]

theorem registerAsMemberCandidate_retries_until_registration_succeeds_witness :
    registerAsMemberCandidate
        ([.newBlock (.ok true) (some "transaction reverted"), .newBlock (.ok false) none,
          .newBlock (.ok true) (some "out of gas")] ++
          .newBlock (.ok true) none :: .ctxDone :: [.newBlock (.ok true) none]) =
      ([.isEligibleForApplication, .registerAsMemberCandidate false,
        .isEligibleForApplication,
        .isEligibleForApplication, .registerAsMemberCandidate false,
        .isEligibleForApplication, .registerAsMemberCandidate true, .cancel],
        .returned) ∧
    registrationAttempts
        ([EligibilityEvent.newBlock (.ok true) (some "transaction reverted"),
          .newBlock (.ok false) none,
          .newBlock (.ok true) (some "out of gas")].flatMap specPollingSteps) = 2 :=
  ⟨(registerAsMemberCandidate_retries_until_registration_succeeds
      [.newBlock (.ok true) (some "transaction reverted"), .newBlock (.ok false) none,
       .newBlock (.ok true) (some "out of gas")]
      [.newBlock (.ok true) none]
      (by simp [EligibilityEvent.isUnsuccessfulBlock])).2.2.2.2,
   (registerAsMemberCandidate_retries_until_registration_succeeds
      [.newBlock (.ok true) (some "transaction reverted"), .newBlock (.ok false) none,
       .newBlock (.ok true) (some "out of gas")]
      [.newBlock (.ok true) none]
      (by simp [EligibilityEvent.isUnsuccessfulBlock])).2.2.1⟩

/-- C7, the code at the failing input: two blocks on which the eligibility
check fails or denies, then two blocks on which the operator is eligible and
the registration call succeeds, the last one ready when the loop enters its
`select` again after `cancel()`. The first successful call is followed by a
further eligibility check and a second call of `RegisterAsMemberCandidate`
before the function returns. -/
theorem registerAsMemberCandidate_registers_again_on_queued_block :
    registerAsMemberCandidate
        [.newBlock (.error "no connection") none, .newBlock (.ok false) none,
         .newBlock (.ok true) none, .newBlock (.ok true) none] =
      ([.isEligibleForApplication, .isEligibleForApplication,
        .isEligibleForApplication, .registerAsMemberCandidate true, .cancel,
        .isEligibleForApplication, .registerAsMemberCandidate true, .cancel],
        .returned) ∧
    registrationAttempts
      (registerAsMemberCandidate
        [.newBlock (.error "no connection") none, .newBlock (.ok false) none,
         .newBlock (.ok true) none, .newBlock (.ok true) none]).1 = 2 := by
  constructor
  · rfl
  · decide

theorem monitorSignerPoolStatus_ticks (ticks : List StatusTick) (rest : List StatusEvent) :
    monitorSignerPoolStatus (ticks.map StatusTick.toEvent ++ rest) =
      andThen (ticks.flatMap specStatusCallsOnTick) (monitorSignerPoolStatus rest) := by
  induction ticks with
  | nil => rfl
  | cons t ticks ih =>
    obtain ⟨status, update⟩ := t
    match status with
    | .error _ =>
      simp [StatusTick.toEvent, monitorSignerPoolStatus, specStatusCallsOnTick, andThen] at ih ⊢
      simp [ih]
    | .ok true =>
      simp [StatusTick.toEvent, monitorSignerPoolStatus, specStatusCallsOnTick, andThen] at ih ⊢
      simp [ih]
    | .ok false =>
      simp [StatusTick.toEvent, monitorSignerPoolStatus, specStatusCallsOnTick, andThen] at ih ⊢
      simp [ih]

theorem monitorSignerPoolStatus_returned_iff (events : List StatusEvent) :
    (monitorSignerPoolStatus events).2 = .returned ↔ StatusEvent.ctxDone ∈ events := by
  induction events with
  | nil => simp [monitorSignerPoolStatus]
  | cons e rest ih =>
    match e with
    | .ctxDone => simp [monitorSignerPoolStatus]
    | .newBlock (.error _) _ => simpa [monitorSignerPoolStatus, andThen] using ih
    | .newBlock (.ok true) _ => simpa [monitorSignerPoolStatus, andThen] using ih
    | .newBlock (.ok false) _ => simpa [monitorSignerPoolStatus, andThen] using ih

/-- C10: for every sequence of block ticks and chain responses, the effects of
`monitorSignerPoolStatus` are, tick by tick, one status check followed by one
update call exactly when the check succeeded and reported the status stale.
Failed checks and failed updates do not end the loop: after the ticks it is
still waiting in its `select`, and it returns exactly when `ctx.Done()` is
delivered. -/
theorem monitorSignerPoolStatus_updates_exactly_when_stale
    (ticks : List StatusTick) (rest : List StatusEvent) (events : List StatusEvent) :
    monitorSignerPoolStatus (ticks.map StatusTick.toEvent) =
      (ticks.flatMap specStatusCallsOnTick, .waiting) ∧
    monitorSignerPoolStatus (ticks.map StatusTick.toEvent ++ .ctxDone :: rest) =
      (ticks.flatMap specStatusCallsOnTick, .returned) ∧
    ((monitorSignerPoolStatus events).2 = .returned ↔ StatusEvent.ctxDone ∈ events) := by
  refine ⟨?_, ?_, monitorSignerPoolStatus_returned_iff events⟩
  · have := monitorSignerPoolStatus_ticks ticks []
    simpa [monitorSignerPoolStatus, andThen] using this
  · have := monitorSignerPoolStatus_ticks ticks (.ctxDone :: rest)
    simpa [monitorSignerPoolStatus, andThen] using this

theorem waitUntilRegistered_returned (polls : List RegistrationPoll)
    (h : (waitUntilRegistered polls).2 = .returned) :
    ∃ poll ∈ polls, poll.ctxErr = true ∨ poll.isRegistered = .ok true := by
  induction polls with
  | nil => simp [waitUntilRegistered] at h
  | cons poll rest ih =>
    obtain ⟨ctxErr, isRegistered, currentBlock, currentBlockErr, wait⟩ := poll
    cases ctxErr with
    | true => exact ⟨_, List.mem_cons_self _ _, Or.inl rfl⟩
    | false =>
      match isRegistered with
      | .ok true => exact ⟨_, List.mem_cons_self _ _, Or.inr rfl⟩
      | .ok false =>
        simp only [waitUntilRegistered, andThen_snd] at h
        obtain ⟨q, hq, hprop⟩ := ih (by simpa using h)
        exact ⟨q, List.mem_cons_of_mem _ hq, hprop⟩
      | .error _ =>
        simp only [waitUntilRegistered, andThen_snd] at h
        obtain ⟨q, hq, hprop⟩ := ih (by simpa using h)
        exact ⟨q, List.mem_cons_of_mem _ hq, hprop⟩

theorem waitUntilRegistered_waits_when_not_registered (poll : RegistrationPoll)
    (rest : List RegistrationPoll) (hctx : poll.ctxErr = false)
    (hquery : poll.isRegistered = .ok false) :
    waitUntilRegistered (poll :: rest) =
      andThen
        [.isRegisteredForApplication, .currentBlock,
         .waitForBlockHeight ((poll.currentBlock + checkIntervalBlocks) % 2 ^ 64)]
        (waitUntilRegistered rest) := by
  simp [waitUntilRegistered, hctx, hquery]

/-- C11, the code at the failing inputs: (1) when an
`IsRegisteredForApplication` query fails, the loop takes `continue` and makes
the next query at once, with no `CurrentBlock` and no `WaitForBlockHeight`
call between the two queries; (2) when `CurrentBlock` fails with the zero
value, the error is only logged and the loop waits for block height 0 + 5,
whatever the height of the chain. -/
theorem waitUntilRegistered_queries_again_without_waiting :
    waitUntilRegistered
        [{ ctxErr := false, isRegistered := .error "no connection",
           currentBlock := 1000, currentBlockErr := none, waitForBlockHeight := none },
         { ctxErr := false, isRegistered := .ok true,
           currentBlock := 1000, currentBlockErr := none, waitForBlockHeight := none }] =
      ([.isRegisteredForApplication, .isRegisteredForApplication], .returned) ∧
    waitUntilRegistered
        [{ ctxErr := false, isRegistered := .ok false,
           currentBlock := 0, currentBlockErr := some "no connection",
           waitForBlockHeight := none },
         { ctxErr := false, isRegistered := .ok true,
           currentBlock := 1000, currentBlockErr := none, waitForBlockHeight := none }] =
      ([.isRegisteredForApplication, .currentBlock, .waitForBlockHeight 5,
        .isRegisteredForApplication], .returned) := by
  constructor <;> decide

end Client

/-! ## Theorems: event orchestrator -/

namespace Client

theorem keepCreatedHandler_not_member (operatorAddress : Address)
    (event : BondedECDSAKeepCreatedEvent) (answers : KeepCreatedAnswers)
    (h : event.IsMember operatorAddress = false) :
    Initialize.keepCreatedHandler operatorAddress event answers = [] := by
  simp [Initialize.keepCreatedHandler, h]

/-- C3, the code at the failing inputs: for a new keep of which the operator
(address 7) is a member, (1) when `AnnounceSignerPresence` fails the handler
still generates the signer, registers it and starts the signature-requested
subscription and the keep-closed monitor; (2) when `RegisterSigner` fails the
handler still starts the subscription and the monitor. Only a failure of
`GenerateSignerForKeep` aborts the setup. -/
theorem keepCreatedHandler_goes_on_after_announce_or_register_failure :
    Initialize.keepCreatedHandler 7 { keepAddress := 100, members := [5, 7, 9] }
        { announceMemberIDs := [], announceErr := some "announcement timed out",
          generateSignerForKeep := .ok 1, registerSigner := none,
          onSignatureRequested := { subscription := some 40, err := none } } =
      [.announceSignerPresence 100 [5, 7, 9], .generateSignerForKeep 100 [],
       .registerSigner 100 1, .onSignatureRequested 100 1,
       .goMonitorKeepClosedEvents 100 (some 40)] ∧
    Initialize.keepCreatedHandler 7 { keepAddress := 100, members := [5, 7, 9] }
        { announceMemberIDs := [1, 2, 3], announceErr := none,
          generateSignerForKeep := .ok 1, registerSigner := some "disk full",
          onSignatureRequested := { subscription := some 40, err := none } } =
      [.announceSignerPresence 100 [5, 7, 9], .generateSignerForKeep 100 [1, 2, 3],
       .registerSigner 100 1, .onSignatureRequested 100 1,
       .goMonitorKeepClosedEvents 100 (some 40)] ∧
    Initialize.keepCreatedHandler 7 { keepAddress := 100, members := [5, 7, 9] }
        { announceMemberIDs := [1, 2, 3], announceErr := none,
          generateSignerForKeep := .error "keygen failed", registerSigner := none,
          onSignatureRequested := { subscription := some 40, err := none } } =
      [.announceSignerPresence 100 [5, 7, 9], .generateSignerForKeep 100 [1, 2, 3]] := by
  refine ⟨?_, ?_, ?_⟩ <;> decide

/-- Runs of `monitorKeepClosedEvents` started with a signature-requested
subscription and in which `OnKeepClosed` hands back a subscription. When the
chain delivers a keep-closed event, the effects are exactly: subscribe,
`UnregisterKeep(keepAddress)`, the signal to the task, its reception, the
unsubscription of the signature-requested subscription, that of the keep-closed
subscription, and the task returns; each subscription is unsubscribed once.
When no event is delivered the task has only subscribed and stays waiting. -/
theorem monitorKeepClosedEvents_with_both_subscriptions (keepAddress : Address)
    (signatureRequested subscriptionOnKeepClosed : Subscription) (err : Option String) :
    monitorKeepClosedEvents keepAddress (some signatureRequested)
        { subscription := some subscriptionOnKeepClosed, err := err } true =
      ([.onKeepClosed keepAddress,
        .unregisterKeep keepAddress, .keepClosedSend,
        .keepClosedReceive,
        .unsubscribeSignatureRequested signatureRequested,
        .unsubscribeKeepClosed subscriptionOnKeepClosed],
       .returned) ∧
    (monitorKeepClosedEvents keepAddress (some signatureRequested)
        { subscription := some subscriptionOnKeepClosed, err := err } true).1.count
      (.unsubscribeSignatureRequested signatureRequested) = 1 ∧
    (monitorKeepClosedEvents keepAddress (some signatureRequested)
        { subscription := some subscriptionOnKeepClosed, err := err } true).1.count
      (.unsubscribeKeepClosed subscriptionOnKeepClosed) = 1 ∧
    monitorKeepClosedEvents keepAddress (some signatureRequested)
        { subscription := some subscriptionOnKeepClosed, err := err } false =
      ([.onKeepClosed keepAddress], .waiting) := by
  refine ⟨rfl, ?_, ?_, rfl⟩
  · simp [monitorKeepClosedEvents, List.count_cons]
  · simp [monitorKeepClosedEvents, List.count_cons]

/-- C4, the code at the failing input: the task is started with a nil
signature-requested subscription (what `monitorSignatureEvents` returns after
`OnSignatureRequested` failed) and `OnKeepClosed` hands back subscription 41.
The `defer` on the nil handle panics; the keep-closed subscription is
unsubscribed alone, although no keep-closed event has been observed and
`UnregisterKeep` was never called, whether or not the chain has a keep-closed
event to deliver. -/
theorem monitorKeepClosedEvents_unsubscribes_keep_closed_alone_on_nil_handle :
    monitorKeepClosedEvents 100 none { subscription := some 41, err := none } false =
      ([.onKeepClosed 100, .unsubscribeKeepClosed 41], .panicked) ∧
    monitorKeepClosedEvents 100 none { subscription := some 41, err := none } true =
      ([.onKeepClosed 100, .unsubscribeKeepClosed 41], .panicked) ∧
    ClientStep.unregisterKeep 100 ∉
      (monitorKeepClosedEvents 100 none { subscription := some 41, err := none } true).1 := by
  refine ⟨rfl, rfl, ?_⟩
  decide

end Client

/-! ## Theorems: signing session -/

namespace Tss

theorem foldl_setBytes (buf : List Byte) (acc : Nat) :
    buf.foldl (fun acc b => acc * 256 + b.val) acc =
      acc * 256 ^ buf.length + bigEndianValue buf := by
  induction buf generalizing acc with
  | nil => simp [bigEndianValue]
  | cons b rest ih =>
    simp only [List.foldl_cons, List.length_cons, bigEndianValue, ih]
    ring

theorem setBytes_eq_bigEndianValue (buf : List Byte) : setBytes buf = bigEndianValue buf := by
  simp [setBytes, foldl_setBytes]

/-- C5: for every engine signature whose recovery output is not empty, the
converter returns a signature whose `R` and `S` are the unsigned big-endian
integers of the engine's R and S bytes and whose `RecoveryID` is the value of
the byte of the recovery output the code reads, the one at index 0; hence
`0 ≤ RecoveryID ≤ 255`. -/
theorem convertSignatureTSStoECDSA_nonempty_recovery (tssSignature : SignatureData)
    (h : tssSignature.signatureRecovery ≠ []) :
    ∃ signature, convertSignatureTSStoECDSA tssSignature = some signature ∧
      signature.R = bigEndianValue tssSignature.r ∧
      signature.S = bigEndianValue tssSignature.s ∧
      signature.RecoveryID = (tssSignature.signatureRecovery.head h).val ∧
      0 ≤ signature.RecoveryID ∧ signature.RecoveryID ≤ 255 := by
  obtain ⟨r, s, recovery⟩ := tssSignature
  cases recovery with
  | nil => exact absurd rfl h
  | cons first rest =>
    refine ⟨_, rfl, setBytes_eq_bigEndianValue r, setBytes_eq_bigEndianValue s, ?_, ?_, ?_⟩
    · simp
    · simp
    · have := first.isLt
      simp
      omega

theorem convertSignatureTSStoECDSA_nonempty_recovery_witness :
    ∃ signature,
      convertSignatureTSStoECDSA { r := [1, 2], s := [255], signatureRecovery := [1] } =
        some signature ∧
      signature.R = bigEndianValue [1, 2] ∧
      signature.S = bigEndianValue [255] ∧
      signature.RecoveryID = (([1] : List Byte).head (by decide)).val ∧
      0 ≤ signature.RecoveryID ∧ signature.RecoveryID ≤ 255 :=
  convertSignatureTSStoECDSA_nonempty_recovery
    { r := [1, 2], s := [255], signatureRecovery := [1] } (by decide)

/-- C2, the claim as stated fails: when the party starts and the engine never
delivers on either channel, `Sign` stays in its `select` and returns neither
a signature nor an error. -/
theorem Sign_blocks_while_engine_silent :
    SigningSigner.Sign { signingParty := some { start := none, wrapError := id } } [] =
      .blocked ∧
    ¬ ((∃ signature, SigningSigner.Sign
          { signingParty := some { start := none, wrapError := id } } [] =
            .returned (some signature) none) ∨
       (∃ err, SigningSigner.Sign
          { signingParty := some { start := none, wrapError := id } } [] =
            .returned none (some err))) := by
  refine ⟨rfl, ?_⟩
  rintro (⟨_, h⟩ | ⟨_, h⟩) <;> simp [SigningSigner.Sign] at h

/-- C2 as amended: for every `SigningSigner` and every engine behaviour,
`Sign` returns a non-nil signature with a nil error when the engine, once
started, first delivers a signature (with a non-empty recovery output); it
returns a nil signature with a non-nil error when the signing party is nil, the
engine fails to start, or the engine first reports an error; whenever it
returns, it returns exactly one of these two, for exactly these reasons, never
both a signature and an error and never neither; and while the started engine
delivers nothing it does not return. -/
theorem Sign_returns_signature_or_error (s : SigningSigner)
    (deliveries : List EngineDelivery) :
    (deliversSignature s deliveries = true →
      ∃ signature, s.Sign deliveries = .returned (some signature) none) ∧
    (failsOrReportsError s deliveries = true →
      ∃ err, s.Sign deliveries = .returned none (some err)) ∧
    (∀ signature err, s.Sign deliveries = .returned signature err →
      (signature.isSome = true ∧ err = none ∧ deliversSignature s deliveries = true) ∨
      (signature = none ∧ err.isSome = true ∧ failsOrReportsError s deliveries = true)) ∧
    (∀ party, s.signingParty = some party → party.start = none → deliveries = [] →
      s.Sign deliveries = .blocked) := by
  obtain ⟨signingParty⟩ := s
  cases signingParty with
  | none => simp [SigningSigner.Sign, deliversSignature, failsOrReportsError]
  | some party =>
    obtain ⟨start, wrapError⟩ := party
    cases start with
    | some e =>
      cases deliveries with
      | nil => simp [SigningSigner.Sign, deliversSignature, failsOrReportsError]
      | cons d rest =>
        cases d <;> simp [SigningSigner.Sign, deliversSignature, failsOrReportsError]
    | none =>
      cases deliveries with
      | nil => simp [SigningSigner.Sign, deliversSignature, failsOrReportsError]
      | cons d rest =>
        cases d with
        | error e => simp [SigningSigner.Sign, deliversSignature, failsOrReportsError]
        | signature data =>
          obtain ⟨r, sBytes, recovery⟩ := data
          cases recovery <;>
            simp [SigningSigner.Sign, deliversSignature, failsOrReportsError,
              convertSignatureTSStoECDSA]

theorem Sign_returns_signature_or_error_witness :
    (∃ signature,
      SigningSigner.Sign { signingParty := some { start := none, wrapError := id } }
          [.signature { r := [1], s := [2], signatureRecovery := [0] }] =
        .returned (some signature) none) ∧
    (∃ err,
      SigningSigner.Sign { signingParty := some { start := none, wrapError := id } }
          [.error "peer timeout"] = .returned none (some err)) ∧
    SigningSigner.Sign { signingParty := some { start := none, wrapError := id } } [] =
      .blocked ∧
    (((none : Option Signature).isSome = true ∧
        (some "failed to get initialized signing party" : Option String) = none ∧
        deliversSignature { signingParty := none } [] = true) ∨
      ((none : Option Signature) = none ∧
        (some "failed to get initialized signing party" : Option String).isSome = true ∧
        failsOrReportsError { signingParty := none } [] = true)) :=
  ⟨(Sign_returns_signature_or_error
      { signingParty := some { start := none, wrapError := id } }
      [.signature { r := [1], s := [2], signatureRecovery := [0] }]).1 rfl,
   (Sign_returns_signature_or_error
      { signingParty := some { start := none, wrapError := id } }
      [.error "peer timeout"]).2.1 rfl,
   (Sign_returns_signature_or_error
      { signingParty := some { start := none, wrapError := id } } []).2.2.2
      _ rfl rfl rfl,
   (Sign_returns_signature_or_error { signingParty := none } []).2.2.1 _ _ rfl⟩

end Tss

/-! ## Theorems: bitcoin transaction signing -/

namespace Btc

theorem SignAndPublishTransaction_rejects_several_inputs (c : Collaborators)
    (witnessSignatureHash transactionPreimage : List Tss.Byte) (transaction : Transaction)
    (hdeserialized : c.deserializeTransaction transactionPreimage = .ok transaction)
    (hinputs : 1 < transaction.txIn.length) :
    SignAndPublishTransaction c witnessSignatureHash transactionPreimage =
      ([], .returned (some "only transactions with one input are supported")) := by
  simp [SignAndPublishTransaction, hdeserialized, hinputs]

/-- C6, the code on a transaction without inputs: whenever the preimage
deserializes to a transaction with zero inputs the input-count check
`len(transaction.TxIn) > 1` lets it pass, and the signature is calculated
instead of the call being rejected. -/
theorem SignAndPublishTransaction_signs_transaction_without_inputs (c : Collaborators)
    (witnessSignatureHash transactionPreimage : List Tss.Byte) (transaction : Transaction)
    (hdeserialized : c.deserializeTransaction transactionPreimage = .ok transaction)
    (hinputs : transaction.txIn.length = 0) :
    (SignAndPublishTransaction c witnessSignatureHash transactionPreimage).1.head? =
      some (.calculateSignature witnessSignatureHash) := by
  unfold SignAndPublishTransaction
  simp only [hdeserialized, hinputs]
  repeat' split
  all_goals simp_all

theorem SignAndPublishTransaction_signs_transaction_without_inputs_witness :
    (SignAndPublishTransaction collaboratorsWithoutInputs [9] [0]).1.head? =
        some (.calculateSignature [9]) ∧
    SignAndPublishTransaction collaboratorsWithoutInputs [9] [0] =
      ([.calculateSignature [9], .publish [1, 0]], .returned none) :=
  ⟨SignAndPublishTransaction_signs_transaction_without_inputs collaboratorsWithoutInputs
      [9] [0] { txIn := [] } rfl rfl,
   by decide⟩

end Btc

/-! ## Theorems: sign command -/

namespace Cmd

/-- C8, the claim as stated fails: when the signature calculation fails, `Sign`
returns a non-nil error after it has already printed the public key block. -/
theorem Sign_prints_public_key_before_failing_to_sign :
    Sign packageFailingToSign "message" =
      ([publicKeyBlock { publicKey := { X := 3, Y := 4 } }],
        some "signature calculation failed [entropy source failed]") ∧
    ¬ ((Sign packageFailingToSign "message").2 ≠ none →
        (Sign packageFailingToSign "message").1 = []) := by
  have hrun : Sign packageFailingToSign "message" =
      ([publicKeyBlock { publicKey := { X := 3, Y := 4 } }],
        some "signature calculation failed [entropy source failed]") := by
    simp [Sign, packageFailingToSign]
  refine ⟨hrun, ?_⟩
  rw [hrun]
  simp

/-- C8 as amended: for every command-line argument, when key generation or
signer creation fails `Sign` returns a non-nil error and has written no output
at all; when the signature calculation fails it returns a non-nil error and has
written the public key block only, never the signature block; when it succeeds
it returns nil after printing the public key (X, Y) and then the signature
(R, S). -/
theorem Sign_output_by_outcome {Key : Type} (pkg : SignPackage Key) (arg : String) :
    (∀ err, pkg.generateKey = .error err →
      Sign pkg arg = ([], some ("key generation failed [" ++ err ++ "]"))) ∧
    (∀ privateKey err, pkg.generateKey = .ok privateKey →
      pkg.newSigner privateKey = .error err →
      Sign pkg arg = ([], some ("signer creation failed [" ++ err ++ "]"))) ∧
    (∀ privateKey signer err, pkg.generateKey = .ok privateKey →
      pkg.newSigner privateKey = .ok signer →
      pkg.calculateSignature signer arg.toUTF8.toList = .error err →
      Sign pkg arg =
        ([publicKeyBlock signer], some ("signature calculation failed [" ++ err ++ "]"))) ∧
    (∀ privateKey signer signature, pkg.generateKey = .ok privateKey →
      pkg.newSigner privateKey = .ok signer →
      pkg.calculateSignature signer arg.toUTF8.toList = .ok signature →
      Sign pkg arg = ([publicKeyBlock signer, signatureBlock signature], none)) ∧
    ((Sign pkg arg).2 = none ↔ (Sign pkg arg).1.length = 2) := by
  refine ⟨?_, ?_, ?_, ?_, ?_⟩
  · intro err h
    simp [Sign, h]
  · intro privateKey err h₁ h₂
    simp [Sign, h₁, h₂]
  · intro privateKey signer err h₁ h₂ h₃
    simp [Sign, h₁, h₂, h₃]
  · intro privateKey signer signature h₁ h₂ h₃
    simp [Sign, h₁, h₂, h₃]
  · unfold Sign
    repeat' split
    all_goals simp

theorem Sign_output_by_outcome_witness :
    Sign packageWithoutKey "message" =
      ([], some ("key generation failed [" ++ "no entropy" ++ "]")) ∧
    Sign packageWithoutSigner "message" =
      ([], some ("signer creation failed [" ++ "invalid key" ++ "]")) ∧
    Sign packageFailingToSign "message" =
      ([publicKeyBlock { publicKey := { X := 3, Y := 4 } }],
        some ("signature calculation failed [" ++ "entropy source failed" ++ "]")) ∧
    Sign packageSigning "message" =
      ([publicKeyBlock { publicKey := { X := 3, Y := 4 } }, signatureBlock { R := 5, S := 6 }],
        none) :=
  ⟨(Sign_output_by_outcome packageWithoutKey "message").1 "no entropy" rfl,
   (Sign_output_by_outcome packageWithoutSigner "message").2.1 11 "invalid key" rfl rfl,
   (Sign_output_by_outcome packageFailingToSign "message").2.2.1 11
      { publicKey := { X := 3, Y := 4 } } "entropy source failed" rfl rfl rfl,
   (Sign_output_by_outcome packageSigning "message").2.2.2.1 11
      { publicKey := { X := 3, Y := 4 } } { R := 5, S := 6 } rfl rfl rfl⟩

end Cmd

end KeepEcdsa
